import Mathlib

deriving instance DecidableEq for Except

/-!
Shallow embedding of `src/stock_chart.py` (stock-chart-generator).

The pipeline under verification is, per instrument:
fetch (external) → normalize columns (lines 89–99) → EMA columns (101–102)
→ build traces (`create_chart_traces`, 29–62) → all-traces check (107)
→ layout / y-range (118–123) → write file and open viewer (147–176),
with the batch loop in `main` (212–213).

Modelling conventions:
* prices/volumes are exact rationals (ℚ); dates are integers (days);
  `datetime.now()` is an explicit parameter `now`.
* Python exceptions are `Except PyError`; an `Except.error` that no
  handler catches models an exception that terminates the run.
* pandas `NaN` (max/min over an empty selection) is `Option.none`.
* `math.log10` is irrational-valued, so the executable pipeline carries
  the exact rational *argument* of each `log10` call (`yMinArg`,
  `yMaxArg`); `Real.logb 10` is applied at the statement boundary by
  `logBound`/`yBounds`.  `math.log10 x` raises `ValueError` for `x ≤ 0`,
  which the executable path checks before the argument is stored.
-/

namespace StockChart

/-- Python exception classes that the script can raise.
`keyError` carries the list of column labels pandas reports as
`not in index` when selecting `df[[...]]` (line 99). -/
inductive PyError where
  | indexError
  | attributeError
  | keyError (missing : List String)
  | valueError
deriving DecidableEq, Repr

/-- A raw tabular series as returned by the external fetch
(`yf.download`, line 82): level-0 column labels with their data,
an optional secondary column grouping level (the per-ticker sub-level),
and the date index.  Each entry of `cols` is one column
(level-0 label, values). -/
structure RawFrame where
  cols : List (String × List ℚ)
  sub : Option (List String)
  dates : List ℤ
deriving DecidableEq, Repr

/-- `df.columns.droplevel(1)` (line 91).  On a two-level column index it
drops the secondary level.  On a single-level index pandas
(`Index._validate_index_level`) raises
`IndexError: Too many levels: Index has only 1 level, not 2`. -/
def dropLevel1 (f : RawFrame) : Except PyError RawFrame :=
  match f.sub with
  | some _ => .ok { f with sub := none }
  | none => .error .indexError

/-- Lines 90–93: `try: df.columns = df.columns.droplevel(1)
except (AttributeError, KeyError): pass`.  Only `AttributeError` and
`KeyError` are caught; any other exception (in particular the
`IndexError` raised on an already-flat index) propagates. -/
def tryFlatten (f : RawFrame) : Except PyError RawFrame :=
  match dropLevel1 f with
  | .ok g => .ok g
  | .error .attributeError => .ok f
  | .error (.keyError _) => .ok f
  | .error e => .error e

/-- The `column_mapping` dict (lines 95–97): lower-case canonical names
to their capitalised forms. -/
def columnMapping (s : String) : Option String :=
  if s = "open" then some "Open"
  else if s = "high" then some "High"
  else if s = "low" then some "Low"
  else if s = "close" then some "Close"
  else if s = "volume" then some "Volume"
  else none

/-- ASCII lower-casing of one character — what Python `str.lower()`
does on the ASCII column labels involved here. -/
def lowerChar (c : Char) : Char :=
  if 65 ≤ c.toNat ∧ c.toNat ≤ 90 then Char.ofNat (c.toNat + 32) else c

/-- `str.lower()` on a column label. -/
def lowerStr (s : String) : String := ⟨s.data.map lowerChar⟩

/-- Line 98: `df.rename(columns={c: column_mapping.get(c.lower(), c) for c
in df.columns})` — each label is looked up lower-cased in the mapping and
kept unchanged when absent. -/
def renameCols (f : RawFrame) : RawFrame :=
  { f with cols := f.cols.map (fun c => ((columnMapping (lowerStr c.1)).getD c.1, c.2)) }

/-- Column lookup by label (first match, as pandas does for a unique
label). -/
def getCol (f : RawFrame) (name : String) : Option (List ℚ) :=
  (f.cols.find? (fun c => c.1 == name)).map Prod.snd

/-- The canonical five-field order of line 99. -/
def canonicalNames : List String := ["Open", "High", "Low", "Close", "Volume"]

/-- A frame holding exactly the five canonical columns, in the fixed
order of line 99, plus the date index. -/
structure CanonFrame where
  dates : List ℤ
  opens : List ℚ
  highs : List ℚ
  lows : List ℚ
  closes : List ℚ
  vols : List ℚ
deriving DecidableEq, Repr

/-- Line 99: `df = df[['Open', 'High', 'Low', 'Close', 'Volume']]`.
If every canonical label is present the frame is projected onto those
five columns in that order; otherwise pandas raises a `KeyError` naming
exactly the labels that are not in the column index. -/
def selectCanonical (f : RawFrame) : Except PyError CanonFrame :=
  match getCol f "Open", getCol f "High", getCol f "Low",
        getCol f "Close", getCol f "Volume" with
  | some o, some h, some l, some c, some v => .ok ⟨f.dates, o, h, l, c, v⟩
  | _, _, _, _, _ =>
      .error (.keyError (canonicalNames.filter (fun n => (getCol f n).isNone)))

/-- The whole normalization step, lines 89–99: flatten the column levels
(uncaught `IndexError` on an already-flat frame), rename
case-insensitively, then select the five canonical columns. -/
def normalize (f : RawFrame) : Except PyError CanonFrame := do
  let g ← tryFlatten f
  selectCanonical (renameCols g)

/-- The tail of the `ewm(span, adjust=False).mean()` recurrence:
given the previous EMA value, each new value is
`a * x + (1 - a) * prev`. -/
def ewmStep (a : ℚ) (prev : ℚ) : List ℚ → List ℚ
  | [] => []
  | x :: xs => (a * x + (1 - a) * prev) :: ewmStep a (a * x + (1 - a) * prev) xs

/-- `Series.ewm(span=w, adjust=False).mean()` (line 102): with
`a = 2 / (w + 1)`, the first output equals the first input and each
later output is `a * x[t] + (1 - a) * y[t-1]`. -/
def emaSeries (w : ℕ) (xs : List ℚ) : List ℚ :=
  match xs with
  | [] => []
  | x :: rest => x :: ewmStep (2 / ((w : ℚ) + 1)) x rest

/-- The EMA column assignment of lines 101–102 for one window.  pandas
validates `span >= 1` and raises `ValueError` otherwise. -/
def emaCol (w : ℕ) (xs : List ℚ) : Except PyError (List ℚ) :=
  if w < 1 then .error .valueError else .ok (emaSeries w xs)

/-- The per-run chart settings from the configuration file (the fields
of `chart_settings` that the pipeline reads). -/
structure ChartSettings where
  data_range_days : ℤ
  ema_windows : List ℕ
  ema_colors : List String
  volume_bar_color : String
deriving DecidableEq, Repr

/-- The candlestick trace of lines 33–40: the four OHLC columns over the
date index. -/
structure CandleTrace where
  dates : List ℤ
  opens : List ℚ
  highs : List ℚ
  lows : List ℚ
  closes : List ℚ
deriving DecidableEq, Repr

/-- The volume bar trace of lines 42–47. -/
structure VolumeTrace where
  dates : List ℤ
  volumes : List ℚ
  color : String
deriving DecidableEq, Repr

/-- One EMA overlay trace of lines 52–60: its window, its display color
and its values (the `EMA{window}` column, line 102). -/
structure EmaTrace where
  window : ℕ
  color : String
  values : List ℚ
deriving DecidableEq, Repr

/-- The EMA overlay list of lines 51–60:
`for window, color in zip(ema_windows, ema_colors)` — windows and colors
are paired positionally and `zip` truncates to the shorter list. -/
def emaTracesOf (df : CanonFrame) (ws : List ℕ) (cs : List String) : List EmaTrace :=
  (ws.zip cs).map (fun wc => ⟨wc.1, wc.2, emaSeries wc.1 df.closes⟩)

/-- `create_chart_traces` (lines 29–62): `(None, None, None)` when the
frame has no rows, otherwise the candlestick trace, the EMA overlay
list and the volume trace. -/
def createChartTraces (df : CanonFrame) (ws : List ℕ) (cs : List String)
    (volColor : String) :
    Option CandleTrace × Option (List EmaTrace) × Option VolumeTrace :=
  if df.dates.isEmpty then (none, none, none)
  else (some ⟨df.dates, df.opens, df.highs, df.lows, df.closes⟩,
        some (emaTracesOf df ws cs),
        some ⟨df.dates, df.vols, volColor⟩)

/-- Line 107: `all([candlestick_trace, ema_traces, volume_trace])` with
Python truthiness — `None` is falsy, an empty list is falsy, a trace
object or a non-empty list is truthy. -/
def allTruthy : Option CandleTrace → Option (List EmaTrace) → Option VolumeTrace → Bool
  | some _, some ts, some _ => !ts.isEmpty
  | _, _, _ => false

/-- Line 118: `df_initial_view = df.loc[end_date - timedelta(days=180):]`
— the rows whose date is at least `now - 180`; the slice has no upper
bound.  Each row is kept as `(date, (high, low))`, the fields the bounds
computation reads. -/
def initialView (now : ℤ) (df : CanonFrame) : List (ℤ × ℚ × ℚ) :=
  (df.dates.zip (df.highs.zip df.lows)).filter (fun r => now - 180 ≤ r.1)

/-- The `High` column of the initial-view slice (line 119). -/
def viewHighs (now : ℤ) (df : CanonFrame) : List ℚ :=
  (initialView now df).map (fun r => r.2.1)

/-- The `Low` column of the initial-view slice (line 120). -/
def viewLows (now : ℤ) (df : CanonFrame) : List ℚ :=
  (initialView now df).map (fun r => r.2.2)

/-- Lines 119–123: `y_max_value = view['High'].max() * 1.1`,
`y_min_value = view['Low'].min() * 0.9`, then
`y_range_min = math.log10(y_min_value)` and
`y_range_max = math.log10(y_max_value)`.
Over an empty selection pandas `max()`/`min()` return `NaN` (here:
`none`) and `math.log10(nan)` is `nan` again — no exception.  Over a
non-empty selection `math.log10` raises `ValueError` when its argument
is not positive (the `y_min` call on line 122 runs first).  The `ok`
payload holds the exact arguments handed to `log10`. -/
def yRangeArgs (now : ℤ) (df : CanonFrame) : Except PyError (Option ℚ × Option ℚ) :=
  match (viewHighs now df).max?, (viewLows now df).min? with
  | some hi, some lo =>
      if lo * (9 / 10) ≤ 0 then .error .valueError
      else if hi * (11 / 10) ≤ 0 then .error .valueError
      else .ok (some (lo * (9 / 10)), some (hi * (11 / 10)))
  | _, _ => .ok (none, none)

/-- `math.log10` on an already-validated positive argument; `none`
models `NaN`. -/
noncomputable def logBound : Option ℚ → Option ℝ :=
  Option.map (fun q => Real.logb 10 (q : ℝ))

/-- The y-axis range actually installed on the price pane (line 129):
`log10` applied to the two stored arguments. -/
noncomputable def yBounds (now : ℤ) (df : CanonFrame) :
    Except PyError (Option ℝ × Option ℝ) :=
  (yRangeArgs now df).map (fun p => (logBound p.1, logBound p.2))

/-- The render-ready description of one chart: the initial x-window of
lines 118/145 (`[now - 180, now]`), the two `log10` arguments of the
y-range, and the three trace groups. -/
structure ChartDescription where
  viewportStart : ℤ
  viewportEnd : ℤ
  yMinArg : Option ℚ
  yMaxArg : Option ℚ
  candle : CandleTrace
  emaTraces : List EmaTrace
  volume : VolumeTrace
deriving DecidableEq, Repr

/-- The outcome of `generate_chart_for_stock` for one instrument:
* `skippedEmptyFetch` — the empty-fetch early return of lines 84–86
  (no chart, batch continues);
* `noTraces` — the `all(...)` check of line 107 failed, the function
  falls through: no figure, no file written, no viewer opened;
* `chart d` — the figure was assembled, written to disk and opened in
  the viewer (a viewer-launch failure is caught on lines 170–176 and is
  non-fatal). -/
inductive Outcome where
  | skippedEmptyFetch
  | noTraces
  | chart (desc : ChartDescription)
deriving DecidableEq, Repr

/-- Lines 107–168: the `if all([candlestick_trace, ema_traces,
volume_trace]):` block — when every trace is truthy the figure is
assembled with the layout of lines 118–145, written to disk and opened;
otherwise the function falls through without producing anything. -/
def composeChart (now : ℤ) (df : CanonFrame)
    (tr : Option CandleTrace × Option (List EmaTrace) × Option VolumeTrace) :
    Except PyError Outcome :=
  if allTruthy tr.1 tr.2.1 tr.2.2 then do
    let yargs ← yRangeArgs now df
    .ok (.chart { viewportStart := now - 180, viewportEnd := now,
                  yMinArg := yargs.1, yMaxArg := yargs.2,
                  candle := tr.1.getD ⟨[], [], [], [], []⟩,
                  emaTraces := tr.2.1.getD [],
                  volume := tr.2.2.getD ⟨[], [], ""⟩ })
  else .ok .noTraces

/-- `generate_chart_for_stock` (lines 64–176), with the fetched frame
passed in for the external `yf.download` result and `now` for
`datetime.now()`.  Any exception the function does not catch surfaces
as `Except.error`. -/
def generateChart (now : ℤ) (cs : ChartSettings) (raw : RawFrame) :
    Except PyError Outcome :=
  if raw.dates.isEmpty then .ok .skippedEmptyFetch
  else do
    let df ← normalize raw
    let _ ← cs.ema_windows.mapM (fun w => emaCol w df.closes)
    composeChart now df
      (createChartTraces df cs.ema_windows cs.ema_colors cs.volume_bar_color)

/-- The batch loop of `main` (lines 212–213):
`for stock in stocks_to_process: generate_chart_for_stock(stock, ...)`.
There is no exception handler around the call, so an uncaught exception
stops the loop; the first component collects the outcomes of the
instruments that were actually processed, the second the terminating
exception, if any. -/
def runBatch (now : ℤ) (cs : ChartSettings) :
    List RawFrame → List Outcome × Option PyError
  | [] => ([], none)
  | f :: rest =>
      match generateChart now cs f with
      | .ok o => ((runBatch now cs rest).1.cons o, (runBatch now cs rest).2)
      | .error e => ([], some e)

/-- The initial x-window of the produced chart, when one was produced. -/
def viewportOf : Except PyError Outcome → Option (ℤ × ℤ)
  | .ok (.chart d) => some (d.viewportStart, d.viewportEnd)
  | _ => none

/-- The last date of a raw series. -/
def lastDateOf (f : RawFrame) : Option ℤ := f.dates.getLast?

/-- The `y_min` `log10` argument of the produced chart, when one was
produced (`none` in that slot models a `NaN` bound). -/
def yMinArgOf : Except PyError Outcome → Option (Option ℚ)
  | .ok (.chart d) => some d.yMinArg
  | _ => none

/-! ### Concrete test fixtures -/

/-- A representative configuration: fetch range 365 days, one EMA
window of span 2 drawn in red. -/
def defaultSettings : ChartSettings := ⟨365, [2], ["red"], "gray"⟩

/-- The same configuration with an empty `ema_windows` list. -/
def noWindowSettings : ChartSettings := ⟨365, [], ["red"], "gray"⟩

/-- A healthy one-bar fetch result in the two-level shape the market
data source returns. -/
def oneBarRaw : RawFrame :=
  ⟨[("Open", [10]), ("High", [12]), ("Low", [9]), ("Close", [10]), ("Volume", [5])],
   some ["T", "T", "T", "T", "T"], [998]⟩

/-- The normalized form of `oneBarRaw`. -/
def oneBarCanon : CanonFrame := ⟨[998], [10], [12], [9], [10], [5]⟩

/-- The chart `generate_chart_for_stock` produces from `oneBarRaw` at
`now = 1000` under `defaultSettings`. -/
def oneBarDesc : ChartDescription :=
  ⟨820, 1000, some (81 / 10), some (66 / 5),
   ⟨[998], [10], [12], [9], [10]⟩,
   [⟨2, "red", [10]⟩],
   ⟨[998], [5], "gray"⟩⟩

/-- A healthy three-bar fetch result whose last date (998) precedes the
fetch end time. -/
def threeBarRaw : RawFrame :=
  ⟨[("Open", [10, 11, 12]), ("High", [12, 13, 12]), ("Low", [9, 11, 10]),
    ("Close", [10, 12, 11]), ("Volume", [5, 6, 7])],
   some ["T", "T", "T", "T", "T"], [990, 995, 998]⟩

/-- The normalized form of `threeBarRaw`. -/
def threeBarCanon : CanonFrame :=
  ⟨[990, 995, 998], [10, 11, 12], [12, 13, 12], [9, 11, 10], [10, 12, 11],
   [5, 6, 7]⟩

/-- A two-level fetch result whose `volume` field is entirely absent. -/
def noVolumeTwoLevel : RawFrame :=
  ⟨[("Open", [10]), ("High", [12]), ("Low", [9]), ("Close", [10])],
   some ["T", "T", "T", "T"], [990]⟩

/-- An already-flat fetch result whose `volume` field is entirely
absent. -/
def noVolumeFlat : RawFrame :=
  ⟨[("Open", [10]), ("High", [12]), ("Low", [9]), ("Close", [11])], none, [998]⟩

/-- An already-canonical series: flat single-level columns, the five
canonical fields in canonical order. -/
def canonicalFlat : RawFrame :=
  ⟨[("Open", [10]), ("High", [12]), ("Low", [9]), ("Close", [11]), ("Volume", [5])],
   none, [998]⟩

/-- A normalized series with one in-viewport bar whose `Low` is `0`
(the data model does not enforce positive prices). -/
def zeroLowFrame : CanonFrame := ⟨[900], [5], [5], [0], [3], [2]⟩

/-- A normalized series with one in-viewport malformed bar whose `Low`
(100) exceeds its `High` (1). -/
def invertedBarFrame : CanonFrame := ⟨[998], [5], [1], [100], [3], [2]⟩

/-- A healthy two-bar fetch result whose bars (dates 500 and 600) all
predate the 180-day initial window at `now = 1000`. -/
def staleRaw : RawFrame :=
  ⟨[("Open", [10, 11]), ("High", [12, 13]), ("Low", [9, 11]),
    ("Close", [10, 12]), ("Volume", [5, 6])],
   some ["T", "T", "T", "T", "T"], [500, 600]⟩

/-- The normalized form of `staleRaw`. -/
def staleCanon : CanonFrame := ⟨[500, 600], [10, 11], [12, 13], [9, 11], [10, 12], [5, 6]⟩

instance : Std.Antisymm ((· : ℚ) ≤ ·) := ⟨fun h1 h2 => le_antisymm h1 h2⟩

/-! ### Helper lemmas -/

lemma rat_min?_eq_some_iff {xs : List ℚ} {a : ℚ} :
    xs.min? = some a ↔ a ∈ xs ∧ ∀ b ∈ xs, a ≤ b :=
  List.min?_eq_some_iff (fun _ => le_refl _) (fun _ _ => min_choice _ _)
    (fun _ _ _ => le_min_iff)

lemma rat_max?_eq_some_iff {xs : List ℚ} {a : ℚ} :
    xs.max? = some a ↔ a ∈ xs ∧ ∀ b ∈ xs, b ≤ a :=
  List.max?_eq_some_iff (fun _ => le_refl _) (fun _ _ => max_choice _ _)
    (fun _ _ _ => max_le_iff)

lemma initialView_all_dates {now : ℤ} {df : CanonFrame}
    (h : ∀ d ∈ df.dates, d ≤ now) :
    initialView now df
      = (df.dates.zip (df.highs.zip df.lows)).filter
          (fun r => decide (now - 180 ≤ r.1 ∧ r.1 ≤ now)) := by
  unfold initialView
  apply List.filter_congr
  intro x hx
  have hx1 : x.1 ≤ now := h x.1 (List.of_mem_zip hx).1
  simp [hx1]

lemma except_bind_ok {ε α β : Type} (a : α) (f : α → Except ε β) :
    (Except.ok a >>= f) = f a := rfl

lemma except_bind_error {ε α β : Type} (e : ε) (f : α → Except ε β) :
    ((Except.error e : Except ε α) >>= f) = .error e := rfl

lemma ewmStep_length (a p : ℚ) (xs : List ℚ) :
    (ewmStep a p xs).length = xs.length := by
  induction xs generalizing p with
  | nil => rfl
  | cons x xs ih => simp [ewmStep, ih]

lemma ewmStep_getD (a : ℚ) (xs : List ℚ) :
    ∀ (p : ℚ) (i : ℕ), i < xs.length →
      (ewmStep a p xs).getD i 0 =
        a * xs.getD i 0 + (1 - a) * ((p :: ewmStep a p xs).getD i 0) := by
  induction xs with
  | nil => intro p i h; simp at h
  | cons x xs ih =>
    intro p i h
    cases i with
    | zero => simp [ewmStep]
    | succ i =>
      have h' : i < xs.length := by simpa using h
      simp only [ewmStep, List.getD_cons_succ]
      exact ih (a * x + (1 - a) * p) i h'

lemma emaSeries_length (w : ℕ) (xs : List ℚ) :
    (emaSeries w xs).length = xs.length := by
  cases xs with
  | nil => rfl
  | cons x rest => simp [emaSeries, ewmStep_length]

lemma emaSeries_head (w : ℕ) (xs : List ℚ) :
    (emaSeries w xs).getD 0 0 = xs.getD 0 0 := by
  cases xs <;> simp [emaSeries]

lemma ema_scenario_eval : emaSeries 2 [10, 12, 11] = [10, 34 / 3, 100 / 9] := by
  simp [emaSeries, ewmStep]
  norm_num

lemma emaSeries_rec (w : ℕ) (xs : List ℚ) (t : ℕ) (h : t + 1 < xs.length) :
    (emaSeries w xs).getD (t + 1) 0 =
      2 / ((w : ℚ) + 1) * xs.getD (t + 1) 0
        + (1 - 2 / ((w : ℚ) + 1)) * (emaSeries w xs).getD t 0 := by
  cases xs with
  | nil => simp at h
  | cons x rest =>
    have h' : t < rest.length := by simpa using h
    simp only [emaSeries, List.getD_cons_succ]
    exact ewmStep_getD _ rest x t h'

/-! ### Claims -/

/-- C1: for every non-empty normalized series and configured window
span `W ≥ 1`, the EMA column succeeds and satisfies
`EMA[0] = Close[0]` and
`EMA[t] = (2/(W+1))·Close[t] + (1 − 2/(W+1))·EMA[t−1]` for
`1 ≤ t ≤ n−1`; in particular with closes `[10, 12, 11]` and span 2 the
series is `[10, 34/3, 100/9]` (= `[10, 11.333…, 11.111…]`). -/
theorem c1_ema_recurrence (w : ℕ) (closes : List ℚ) (hw : 1 ≤ w)
    (hne : closes ≠ []) :
    emaCol w closes = .ok (emaSeries w closes) ∧
    (emaSeries w closes).length = closes.length ∧
    (emaSeries w closes).getD 0 0 = closes.getD 0 0 ∧
    (∀ t, t + 1 < closes.length →
      (emaSeries w closes).getD (t + 1) 0 =
        2 / ((w : ℚ) + 1) * closes.getD (t + 1) 0
          + (1 - 2 / ((w : ℚ) + 1)) * (emaSeries w closes).getD t 0) ∧
    emaSeries 2 [10, 12, 11] = [10, 34 / 3, 100 / 9] := by
  refine ⟨?_, emaSeries_length w closes, emaSeries_head w closes,
    fun t ht => emaSeries_rec w closes t ht, ema_scenario_eval⟩
  unfold emaCol
  rw [if_neg (by omega)]

/-- Witness for C1 at `W = 2`, closes `[10, 12, 11]`. -/
theorem c1_witness :
    1 ≤ 2 ∧ ([10, 12, 11] : List ℚ) ≠ [] ∧
    (emaCol 2 [10, 12, 11] = .ok (emaSeries 2 [10, 12, 11]) ∧
     (emaSeries 2 [10, 12, 11]).length = ([10, 12, 11] : List ℚ).length ∧
     (emaSeries 2 [10, 12, 11]).getD 0 0 = ([10, 12, 11] : List ℚ).getD 0 0 ∧
     (∀ t, t + 1 < ([10, 12, 11] : List ℚ).length →
       (emaSeries 2 [10, 12, 11]).getD (t + 1) 0 =
         2 / ((2 : ℕ) + 1 : ℚ) * ([10, 12, 11] : List ℚ).getD (t + 1) 0
           + (1 - 2 / ((2 : ℕ) + 1 : ℚ)) * (emaSeries 2 [10, 12, 11]).getD t 0) ∧
     emaSeries 2 [10, 12, 11] = [10, 34 / 3, 100 / 9]) :=
  ⟨by decide, by decide, c1_ema_recurrence 2 [10, 12, 11] (by decide) (by decide)⟩

/-- C7: when `ema_windows` has `k` entries and `ema_colors` has `m < k`
entries, exactly `m` EMA overlay traces are produced, and trace `i`
pairs window `i` with color `i` (shortest-list truncation, no error). -/
theorem c7_truncation (df : CanonFrame) (ws : List ℕ) (cs : List String)
    (h : cs.length < ws.length) :
    (emaTracesOf df ws cs).length = cs.length ∧
    ∀ i, i < cs.length →
      (emaTracesOf df ws cs).getD i ⟨0, "", []⟩ =
        ⟨ws.getD i 0, cs.getD i "", emaSeries (ws.getD i 0) df.closes⟩ := by
  constructor
  · simp [emaTracesOf, List.length_zip]
    omega
  · intro i hi
    have hwi : i < ws.length := by omega
    have hm : i < (emaTracesOf df ws cs).length := by
      simp [emaTracesOf, List.length_zip]
      omega
    rw [List.getD_eq_getElem _ _ hm]
    simp [emaTracesOf, List.getElem_map, List.getElem_zip,
      List.getElem?_eq_getElem, hwi, hi]

/-- Witness for C7: two windows, one color. -/
theorem c7_witness :
    (["red"] : List String).length < ([2, 5] : List ℕ).length ∧
    ((emaTracesOf oneBarCanon [2, 5] ["red"]).length
        = (["red"] : List String).length ∧
     ∀ i, i < (["red"] : List String).length →
       (emaTracesOf oneBarCanon [2, 5] ["red"]).getD i ⟨0, "", []⟩ =
         ⟨([2, 5] : List ℕ).getD i 0, (["red"] : List String).getD i "",
          emaSeries (([2, 5] : List ℕ).getD i 0) oneBarCanon.closes⟩) :=
  ⟨by decide, c7_truncation oneBarCanon [2, 5] ["red"] (by decide)⟩

/-! ### Pipeline evaluation lemmas -/

lemma tryFlatten_fields {raw g : RawFrame} (h : tryFlatten raw = .ok g) :
    g.cols = raw.cols ∧ g.dates = raw.dates := by
  unfold tryFlatten dropLevel1 at h
  cases hs : raw.sub with
  | none => rw [hs] at h; exact Except.noConfusion h
  | some s =>
    rw [hs] at h
    cases Except.ok.inj h
    exact ⟨rfl, rfl⟩

lemma normalize_dates {raw : RawFrame} {df : CanonFrame}
    (h : normalize raw = .ok df) : df.dates = raw.dates := by
  unfold normalize at h
  cases hf : tryFlatten raw with
  | error e => rw [hf, except_bind_error] at h; exact Except.noConfusion h
  | ok g =>
    rw [hf, except_bind_ok] at h
    obtain ⟨-, hd⟩ := tryFlatten_fields hf
    unfold selectCanonical at h
    split at h
    · cases Except.ok.inj h
      simpa [renameCols] using hd
    · exact Except.noConfusion h

lemma mapM_emaCol_ok (ws : List ℕ) (xs : List ℚ) (h : ∀ w ∈ ws, 1 ≤ w) :
    ws.mapM (fun w => emaCol w xs) = .ok (ws.map (fun w => emaSeries w xs)) := by
  induction ws with
  | nil => rfl
  | cons w ws ih =>
    have h1 : emaCol w xs = .ok (emaSeries w xs) := by
      unfold emaCol
      rw [if_neg (by have := h w (by simp); omega)]
    simp only [List.mapM_cons, h1, ih (fun v hv => h v (by simp [hv])),
      List.map_cons]
    rfl

lemma createChartTraces_nonempty {df : CanonFrame} (ws : List ℕ)
    (cs : List String) (vc : String) (h : df.dates.isEmpty = false) :
    createChartTraces df ws cs vc =
      (some ⟨df.dates, df.opens, df.highs, df.lows, df.closes⟩,
       some (emaTracesOf df ws cs), some ⟨df.dates, df.vols, vc⟩) := by
  simp [createChartTraces, h]

lemma yRangeArgs_empty {now : ℤ} {df : CanonFrame}
    (h : initialView now df = []) : yRangeArgs now df = .ok (none, none) := by
  unfold yRangeArgs viewHighs viewLows
  rw [h]
  rfl

/-- If the fetch is non-empty, normalization succeeds, all spans are
valid and the EMA trace list is non-empty, the chart is produced, with
the `[now − 180, now]` x-window and the y-range arguments delivered by
the layout computation. -/
lemma generateChart_chart (now : ℤ) (cs : ChartSettings) (raw : RawFrame)
    (df : CanonFrame) (yargs : Option ℚ × Option ℚ)
    (hne : raw.dates ≠ []) (hn : normalize raw = .ok df)
    (hws : ∀ w ∈ cs.ema_windows, 1 ≤ w)
    (hts : emaTracesOf df cs.ema_windows cs.ema_colors ≠ [])
    (hy : yRangeArgs now df = .ok yargs) :
    generateChart now cs raw = .ok (.chart
      { viewportStart := now - 180, viewportEnd := now,
        yMinArg := yargs.1, yMaxArg := yargs.2,
        candle := ⟨df.dates, df.opens, df.highs, df.lows, df.closes⟩,
        emaTraces := emaTracesOf df cs.ema_windows cs.ema_colors,
        volume := ⟨df.dates, df.vols, cs.volume_bar_color⟩ }) := by
  have hde : df.dates.isEmpty = false := by
    rw [normalize_dates hn]
    exact List.isEmpty_eq_false.mpr hne
  unfold generateChart
  rw [if_neg (by simp [hne]), hn, except_bind_ok,
    mapM_emaCol_ok _ _ hws, except_bind_ok,
    createChartTraces_nonempty _ _ _ hde]
  simp only [composeChart, allTruthy, List.isEmpty_eq_false.mpr hts,
    Bool.not_false, if_true, hy, except_bind_ok, Option.getD_some]

/-- If the fetch is non-empty and normalization succeeds but the EMA
overlay list is empty, the `all(...)` check fails and nothing further
happens: no figure, no file, no viewer. -/
lemma generateChart_noTraces (now : ℤ) (cs : ChartSettings) (raw : RawFrame)
    (df : CanonFrame)
    (hne : raw.dates ≠ []) (hn : normalize raw = .ok df)
    (hws : ∀ w ∈ cs.ema_windows, 1 ≤ w)
    (hts : emaTracesOf df cs.ema_windows cs.ema_colors = []) :
    generateChart now cs raw = .ok .noTraces := by
  have hde : df.dates.isEmpty = false := by
    rw [normalize_dates hn]
    exact List.isEmpty_eq_false.mpr hne
  unfold generateChart
  rw [if_neg (by simp [hne]), hn, except_bind_ok,
    mapM_emaCol_ok _ _ hws, except_bind_ok,
    createChartTraces_nonempty _ _ _ hde]
  simp [composeChart, allTruthy, hts]

/-- C2 counterexample: a batch of two instruments where the first one's
raw series lacks the `volume` field entirely.  The `KeyError` raised by
the canonical-column selection (line 99) is caught nowhere — neither in
`generate_chart_for_stock` nor around the loop of `main` (lines
212–213) — so the batch terminates with the exception and the second,
healthy instrument is never processed: zero outcomes are produced,
refuting skip-and-continue. -/
theorem c2_counterexample :
    runBatch 1000 defaultSettings [noVolumeTwoLevel, oneBarRaw]
      = ([], some (.keyError ["Volume"])) ∧
    generateChart 1000 defaultSettings oneBarRaw ≠ .ok .skippedEmptyFetch := by
  constructor
  · decide
  · intro h
    have := generateChart_chart 1000 defaultSettings oneBarRaw oneBarCanon
      (some (81 / 10), some (66 / 5)) (by decide) (by decide) (by decide)
      (by decide)
      (by norm_num [yRangeArgs, viewLows, viewHighs, initialView, oneBarCanon])
    rw [h] at this
    exact Outcome.noConfusion (Except.ok.inj this)

/-- C2 (amended): only the empty-fetch condition is converted into a
skip-and-continue outcome.  Any other per-instrument failure — e.g. the
`KeyError` for a missing canonical field — is uncaught at the
instrument-processing boundary and terminates the batch: exactly the
instruments before the failing one are processed and the ones after it
are not, while an empty fetch for one instrument is skipped without
stopping the ones after it. -/
theorem c2_amended (now : ℤ) (cs : ChartSettings) (pre post : List RawFrame)
    (bad : RawFrame) (e : PyError)
    (hpre : ∀ f ∈ pre, ∃ o, generateChart now cs f = .ok o)
    (hbad : generateChart now cs bad = .error e) :
    ((runBatch now cs (pre ++ bad :: post)).1.length = pre.length ∧
     (runBatch now cs (pre ++ bad :: post)).2 = some e) ∧
    ∀ (g : RawFrame) (rest : List RawFrame), g.dates = [] →
      runBatch now cs (g :: rest)
        = ((runBatch now cs rest).1.cons .skippedEmptyFetch,
           (runBatch now cs rest).2) := by
  constructor
  · induction pre with
    | nil => simp [runBatch, hbad]
    | cons f fs ih =>
      obtain ⟨o, ho⟩ := hpre f (by simp)
      have h2 := ih (fun g hg => hpre g (by simp [hg]))
      simp only [List.cons_append, runBatch, ho]
      simp [h2.1, h2.2]
  · intro g rest hg
    have hskip : generateChart now cs g = .ok .skippedEmptyFetch := by
      unfold generateChart
      rw [if_pos (by simp [hg])]
    simp [runBatch, hskip]

/-- Witness for C2 (amended): the healthy instrument first, then the
missing-volume instrument; exactly the first is processed. -/
theorem c2_witness :
    (∀ f ∈ [oneBarRaw], ∃ o, generateChart 1000 defaultSettings f = .ok o) ∧
    generateChart 1000 defaultSettings noVolumeTwoLevel
      = .error (.keyError ["Volume"]) ∧
    (((runBatch 1000 defaultSettings
          ([oneBarRaw] ++ noVolumeTwoLevel :: [])).1.length
        = ([oneBarRaw] : List RawFrame).length ∧
      (runBatch 1000 defaultSettings
          ([oneBarRaw] ++ noVolumeTwoLevel :: [])).2
        = some (.keyError ["Volume"])) ∧
     ∀ (g : RawFrame) (rest : List RawFrame), g.dates = [] →
       runBatch 1000 defaultSettings (g :: rest)
         = ((runBatch 1000 defaultSettings rest).1.cons .skippedEmptyFetch,
            (runBatch 1000 defaultSettings rest).2)) := by
  have hpre : ∀ f ∈ [oneBarRaw], ∃ o,
      generateChart 1000 defaultSettings f = .ok o := by
    intro f hf
    simp only [List.mem_singleton] at hf
    subst hf
    exact ⟨_, generateChart_chart 1000 defaultSettings oneBarRaw oneBarCanon
      (some (81 / 10), some (66 / 5)) (by decide) (by decide) (by decide)
      (by decide)
      (by norm_num [yRangeArgs, viewLows, viewHighs, initialView, oneBarCanon])⟩
  exact ⟨hpre, by decide,
    c2_amended 1000 defaultSettings [oneBarRaw] [] noVolumeTwoLevel
      (.keyError ["Volume"]) hpre (by decide)⟩

/-- C10: with a non-empty, fully normalizable fetch and an empty
`ema_windows` or `ema_colors` list, `zip` makes the EMA trace list
empty, the empty list is falsy in the `all(...)` check of line 107, and
no chart description is produced: no output file is written and no
viewer is opened for that instrument. -/
theorem c10_empty_overlay (now : ℤ) (cs : ChartSettings) (raw : RawFrame)
    (df : CanonFrame) (hne : raw.dates ≠ []) (hn : normalize raw = .ok df)
    (hws : ∀ w ∈ cs.ema_windows, 1 ≤ w)
    (hempty : cs.ema_windows = [] ∨ cs.ema_colors = []) :
    generateChart now cs raw = .ok .noTraces := by
  apply generateChart_noTraces now cs raw df hne hn hws
  rcases hempty with h | h <;> simp [emaTracesOf, h]

/-- C3 counterexample: at `now = 1000` with `data_range_days = 365`,
the three-bar series ending at date 998 produces a chart whose initial
window is `[820, 1000]`: the window's end is the fetch time `now`, not
the series' last date 998, and its span is the hard-coded 180 days, not
the configured 365. -/
theorem c3_counterexample :
    viewportOf (generateChart 1000 defaultSettings threeBarRaw)
      = some (820, 1000) ∧
    lastDateOf threeBarRaw = some 998 ∧
    defaultSettings.data_range_days = 365 ∧
    (1000 : ℤ) ≠ 998 ∧ (1000 : ℤ) - 820 ≠ 365 := by
  refine ⟨?_, by decide, by decide, by decide, by decide⟩
  rw [generateChart_chart 1000 defaultSettings threeBarRaw threeBarCanon
    (some (81 / 10), some (143 / 10)) (by decide) (by decide) (by decide)
    (by decide)
    (by norm_num [yRangeArgs, viewLows, viewHighs, initialView, threeBarCanon])]
  decide

/-- C3 (amended): for every chart the run produces, the initial visible
window (used both at line 118 for the y-bounds slice and at line 145
for the x-range) ends at the fetch end time `now` (`datetime.now()`),
not at the series' last date, and starts exactly 180 days earlier — a
hard-coded span, independent of the configured `data_range_days`. -/
theorem c3_amended (now : ℤ) (cs : ChartSettings) (raw : RawFrame)
    (d : ChartDescription)
    (h : generateChart now cs raw = .ok (.chart d)) :
    d.viewportEnd = now ∧ d.viewportStart = now - 180 ∧
    d.viewportEnd - d.viewportStart = 180 := by
  unfold generateChart at h
  split at h
  · exact Outcome.noConfusion (Except.ok.inj h)
  · cases hn : normalize raw with
    | error e => rw [hn, except_bind_error] at h; exact Except.noConfusion h
    | ok df =>
      rw [hn, except_bind_ok] at h
      cases hm : cs.ema_windows.mapM (fun w => emaCol w df.closes) with
      | error e => rw [hm, except_bind_error] at h; exact Except.noConfusion h
      | ok ls =>
        rw [hm, except_bind_ok] at h
        unfold composeChart at h
        split at h
        · cases hy : yRangeArgs now df with
          | error e =>
            rw [hy, except_bind_error] at h
            exact Except.noConfusion h
          | ok yargs =>
            rw [hy, except_bind_ok] at h
            cases Outcome.chart.inj (Except.ok.inj h)
            refine ⟨rfl, rfl, ?_⟩
            show now - (now - 180) = 180
            omega
        · exact Outcome.noConfusion (Except.ok.inj h)

/-- Witness for C3 (amended): the healthy one-bar run. -/
theorem c3_witness :
    generateChart 1000 defaultSettings oneBarRaw = .ok (.chart oneBarDesc) ∧
    (oneBarDesc.viewportEnd = 1000 ∧
     oneBarDesc.viewportStart = 1000 - 180 ∧
     oneBarDesc.viewportEnd - oneBarDesc.viewportStart = 180) := by
  have h : generateChart 1000 defaultSettings oneBarRaw
      = .ok (.chart oneBarDesc) :=
    generateChart_chart 1000 defaultSettings oneBarRaw oneBarCanon
      (some (81 / 10), some (66 / 5)) (by decide) (by decide) (by decide)
      (by decide)
      (by norm_num [yRangeArgs, viewLows, viewHighs, initialView, oneBarCanon])
  exact ⟨h, c3_amended 1000 defaultSettings oneBarRaw oneBarDesc h⟩

/-- C4: on the two-level column shape the market-data source returns, a
raw series whose `volume` field is entirely absent fails with an error
naming exactly `Volume`, and no chart is produced for that instrument —
but on an already-flat raw series with the same defect the run instead
crashes with the droplevel `IndexError` (the uncaught-exception slip of
lines 90–93) before the field check is ever reached. -/
theorem c4_missing_volume_eval :
    normalize noVolumeTwoLevel = .error (.keyError ["Volume"]) ∧
    generateChart 1000 defaultSettings noVolumeTwoLevel
      = .error (.keyError ["Volume"]) ∧
    normalize noVolumeFlat = .error .indexError :=
  ⟨by decide, by decide, by decide⟩

/-- C6 counterexample: the two-bar series with dates 500 and 600 has no
bar inside the viewport window `[820, 1000]`, yet the run produces a
chart — outcome `chart`, with `NaN` (`none`) y-bounds — instead of
raising an `InsufficientHistoryError` and skipping the instrument. -/
theorem c6_counterexample :
    normalize staleRaw = .ok staleCanon ∧
    initialView 1000 staleCanon = [] ∧
    viewportOf (generateChart 1000 defaultSettings staleRaw)
      = some (820, 1000) ∧
    yMinArgOf (generateChart 1000 defaultSettings staleRaw) = some none := by
  have h := generateChart_chart 1000 defaultSettings staleRaw staleCanon
    (none, none) (by decide) (by decide) (by decide) (by decide)
    (yRangeArgs_empty (by decide))
  refine ⟨by decide, by decide, ?_, ?_⟩
  · rw [h]; decide
  · rw [h]; rfl

/-- C6 (amended): when the series has no bars inside the viewport
window, no error is raised and the instrument is not skipped: pandas
`max()`/`min()` over the empty slice give `NaN`, `math.log10(nan)` is
`nan` again, and the chart is produced with `NaN` y-range bounds. -/
theorem c6_nan_bounds (now : ℤ) (cs : ChartSettings) (raw : RawFrame)
    (df : CanonFrame) (hne : raw.dates ≠ []) (hn : normalize raw = .ok df)
    (hws : ∀ w ∈ cs.ema_windows, 1 ≤ w)
    (hts : emaTracesOf df cs.ema_windows cs.ema_colors ≠ [])
    (hview : initialView now df = []) :
    generateChart now cs raw = .ok (.chart
      { viewportStart := now - 180, viewportEnd := now,
        yMinArg := none, yMaxArg := none,
        candle := ⟨df.dates, df.opens, df.highs, df.lows, df.closes⟩,
        emaTraces := emaTracesOf df cs.ema_windows cs.ema_colors,
        volume := ⟨df.dates, df.vols, cs.volume_bar_color⟩ }) :=
  generateChart_chart now cs raw df (none, none) hne hn hws hts
    (yRangeArgs_empty hview)

/-- Witness for C6 (amended): the stale two-bar run at `now = 1000`. -/
theorem c6_witness :
    staleRaw.dates ≠ [] ∧ normalize staleRaw = .ok staleCanon ∧
    (∀ w ∈ defaultSettings.ema_windows, 1 ≤ w) ∧
    emaTracesOf staleCanon defaultSettings.ema_windows
      defaultSettings.ema_colors ≠ [] ∧
    initialView 1000 staleCanon = [] ∧
    generateChart 1000 defaultSettings staleRaw = .ok (.chart
      { viewportStart := 1000 - 180, viewportEnd := 1000,
        yMinArg := none, yMaxArg := none,
        candle := ⟨staleCanon.dates, staleCanon.opens, staleCanon.highs,
                   staleCanon.lows, staleCanon.closes⟩,
        emaTraces := emaTracesOf staleCanon defaultSettings.ema_windows
                       defaultSettings.ema_colors,
        volume := ⟨staleCanon.dates, staleCanon.vols,
                   defaultSettings.volume_bar_color⟩ }) :=
  ⟨by decide, by decide, by decide, by decide, by decide,
   c6_nan_bounds 1000 defaultSettings staleRaw staleCanon (by decide)
     (by decide) (by decide) (by decide) (by decide)⟩

/-- C8: the rename and canonical-selection steps do leave an
already-canonical flat series unchanged in field order and values — but
the normalizer as a whole crashes on it: `droplevel(1)` raises
`IndexError` on a single-level column index, and the
`except (AttributeError, KeyError)` clause of lines 92–93 does not
catch `IndexError`, contradicting the code's own comment that an
already-flat frame is left untouched. -/
theorem c8_flat_crash_eval :
    renameCols canonicalFlat = canonicalFlat ∧
    selectCanonical canonicalFlat = .ok ⟨[998], [10], [12], [9], [11], [5]⟩ ∧
    dropLevel1 canonicalFlat = .error .indexError ∧
    normalize canonicalFlat = .error .indexError :=
  ⟨by decide, by decide, by decide, by decide⟩

/-- Witness for C10: a healthy one-bar instrument under a configuration
with an empty `ema_windows` list. -/
theorem c10_witness :
    oneBarRaw.dates ≠ [] ∧ normalize oneBarRaw = .ok oneBarCanon ∧
    (∀ w ∈ noWindowSettings.ema_windows, 1 ≤ w) ∧
    (noWindowSettings.ema_windows = [] ∨ noWindowSettings.ema_colors = []) ∧
    generateChart 1000 noWindowSettings oneBarRaw = .ok .noTraces :=
  ⟨by decide, by decide, by decide, Or.inl rfl,
   c10_empty_overlay 1000 noWindowSettings oneBarRaw oneBarCanon
     (by decide) (by decide) (by decide) (Or.inl rfl)⟩

/-- C5 counterexample: a series with one in-viewport bar whose `Low` is
`0` (the data model does not enforce positive prices).  The viewport
subset is non-empty, yet no y-axis bounds equal to the `log10`
expressions are produced: `math.log10(0.9 * 0)` raises `ValueError`,
so the layout computation fails. -/
theorem c5_counterexample :
    initialView 1000 zeroLowFrame ≠ [] ∧
    yRangeArgs 1000 zeroLowFrame = .error .valueError ∧
    yBounds 1000 zeroLowFrame = .error .valueError := by
  have h : yRangeArgs 1000 zeroLowFrame = .error .valueError := by
    norm_num [yRangeArgs, viewLows, viewHighs, initialView, zeroLowFrame]
  refine ⟨by decide, h, ?_⟩
  unfold yBounds
  rw [h]
  rfl

/-- C5 (amended): for every series whose viewport subset is non-empty,
provided the `log10` arguments `0.9·min(Low)` and `1.1·max(High)` are
positive (otherwise `math.log10` raises `ValueError`), the subset is
exactly the bars whose date falls within `[now − 180, now]` (given the
fetch contract that no bar postdates the fetch end time), and the
y-axis bounds equal `log10(0.9 · min(Low))` and `log10(1.1 · max(High))`
over exactly that subset. -/
theorem c5_log_bounds (now : ℤ) (df : CanonFrame) (lo hi : ℚ)
    (hdates : ∀ d ∈ df.dates, d ≤ now)
    (hmin : (viewLows now df).min? = some lo)
    (hmax : (viewHighs now df).max? = some hi)
    (hlo : 0 < lo * (9 / 10)) (hhi : 0 < hi * (11 / 10)) :
    initialView now df
      = (df.dates.zip (df.highs.zip df.lows)).filter
          (fun r => decide (now - 180 ≤ r.1 ∧ r.1 ≤ now)) ∧
    yBounds now df
      = .ok (some (Real.logb 10 ((9 / 10 : ℝ) * (lo : ℝ))),
             some (Real.logb 10 ((11 / 10 : ℝ) * (hi : ℝ)))) := by
  refine ⟨initialView_all_dates hdates, ?_⟩
  have hy : yRangeArgs now df
      = .ok (some (lo * (9 / 10)), some (hi * (11 / 10))) := by
    unfold yRangeArgs
    rw [hmax, hmin]
    simp only [if_neg (not_le.mpr hlo), if_neg (not_le.mpr hhi)]
  have e1 : ((lo * (9 / 10) : ℚ) : ℝ) = (9 / 10 : ℝ) * (lo : ℝ) := by
    push_cast
    ring
  have e2 : ((hi * (11 / 10) : ℚ) : ℝ) = (11 / 10 : ℝ) * (hi : ℝ) := by
    push_cast
    ring
  unfold yBounds
  rw [hy]
  unfold logBound
  simp only [Except.map, Option.map_some', e1, e2]

/-- Witness for C5 at the healthy one-bar series. -/
theorem c5_witness :
    (∀ d ∈ oneBarCanon.dates, d ≤ (1000 : ℤ)) ∧
    (viewLows 1000 oneBarCanon).min? = some 9 ∧
    (viewHighs 1000 oneBarCanon).max? = some 12 ∧
    (0 : ℚ) < 9 * (9 / 10) ∧ (0 : ℚ) < 12 * (11 / 10) ∧
    (initialView 1000 oneBarCanon
       = (oneBarCanon.dates.zip (oneBarCanon.highs.zip oneBarCanon.lows)).filter
           (fun r => decide (1000 - 180 ≤ r.1 ∧ r.1 ≤ (1000 : ℤ))) ∧
     yBounds 1000 oneBarCanon
       = .ok (some (Real.logb 10 ((9 / 10 : ℝ) * ((9 : ℚ) : ℝ))),
              some (Real.logb 10 ((11 / 10 : ℝ) * ((12 : ℚ) : ℝ))))) :=
  ⟨by decide, by decide, by decide, by norm_num, by norm_num,
   c5_log_bounds 1000 oneBarCanon 9 12 (by decide) (by decide) (by decide)
     (by norm_num) (by norm_num)⟩

/-- C9 counterexample: a malformed in-viewport bar with `Low = 100` and
`High = 1` (the data model does not enforce `Low ≤ High`).  Both bounds
are produced and finite, but `y_min = log10(90)` exceeds
`y_max = log10(1.1)`: the claimed invariant `y_min < y_max` fails. -/
theorem c9_counterexample :
    initialView 1000 invertedBarFrame ≠ [] ∧
    yBounds 1000 invertedBarFrame
      = .ok (some (Real.logb 10 ((90 : ℚ) : ℝ)),
             some (Real.logb 10 ((11 / 10 : ℚ) : ℝ))) ∧
    Real.logb 10 ((11 / 10 : ℚ) : ℝ) < Real.logb 10 ((90 : ℚ) : ℝ) ∧
    ¬ Real.logb 10 ((90 : ℚ) : ℝ) < Real.logb 10 ((11 / 10 : ℚ) : ℝ) := by
  have hy : yRangeArgs 1000 invertedBarFrame
      = .ok (some 90, some (11 / 10)) := by
    norm_num [yRangeArgs, viewLows, viewHighs, initialView, invertedBarFrame]
  have hlt : Real.logb 10 ((11 / 10 : ℚ) : ℝ)
      < Real.logb 10 ((90 : ℚ) : ℝ) :=
    Real.logb_lt_logb (by norm_num) (by push_cast; norm_num)
      (by push_cast; norm_num)
  refine ⟨by decide, ?_, hlt, not_lt.mpr hlt.le⟩
  unfold yBounds
  rw [hy]
  rfl

/-- C9 (amended): for every series whose viewport subset is non-empty
and whose in-viewport bars are well-formed — positive `Low` and
`Low ≤ High` per bar — both y-axis bounds are produced (finite reals)
and `y_min < y_max`. -/
theorem c9_bounds_ordered (now : ℤ) (df : CanonFrame)
    (hne : initialView now df ≠ [])
    (hpos : ∀ r ∈ initialView now df, 0 < r.2.2)
    (hwf : ∀ r ∈ initialView now df, r.2.2 ≤ r.2.1) :
    ∃ a b : ℝ, yBounds now df = .ok (some a, some b) ∧ a < b := by
  obtain ⟨lo, hmin⟩ : ∃ lo, (viewLows now df).min? = some lo := by
    cases h : (viewLows now df).min? with
    | none =>
        exact absurd (List.min?_eq_none_iff.mp h)
          (by simpa [viewLows, List.map_eq_nil_iff] using hne)
    | some lo => exact ⟨lo, rfl⟩
  obtain ⟨hi, hmax⟩ : ∃ hi, (viewHighs now df).max? = some hi := by
    cases h : (viewHighs now df).max? with
    | none =>
        exact absurd (List.max?_eq_none_iff.mp h)
          (by simpa [viewHighs, List.map_eq_nil_iff] using hne)
    | some hi => exact ⟨hi, rfl⟩
  obtain ⟨hloMem, -⟩ := rat_min?_eq_some_iff.mp hmin
  obtain ⟨-, hhiGe⟩ := rat_max?_eq_some_iff.mp hmax
  obtain ⟨r0, hr0, hr0e⟩ := List.mem_map.mp hloMem
  have hlopos : 0 < lo := hr0e ▸ hpos r0 hr0
  have hlohi : lo ≤ hi := by
    calc lo = r0.2.2 := hr0e.symm
    _ ≤ r0.2.1 := hwf r0 hr0
    _ ≤ hi := hhiGe _ (List.mem_map_of_mem _ hr0)
  have hhipos : 0 < hi := lt_of_lt_of_le hlopos hlohi
  have h1 : (0 : ℚ) < lo * (9 / 10) := mul_pos hlopos (by norm_num)
  have h2 : (0 : ℚ) < hi * (11 / 10) := mul_pos hhipos (by norm_num)
  have hy : yRangeArgs now df
      = .ok (some (lo * (9 / 10)), some (hi * (11 / 10))) := by
    unfold yRangeArgs
    rw [hmax, hmin]
    simp only [if_neg (not_le.mpr h1), if_neg (not_le.mpr h2)]
  refine ⟨Real.logb 10 ((lo * (9 / 10) : ℚ) : ℝ),
    Real.logb 10 ((hi * (11 / 10) : ℚ) : ℝ), ?_, ?_⟩
  · unfold yBounds
    rw [hy]
    rfl
  · have harg : lo * (9 / 10) < hi * (11 / 10) := by
      calc lo * (9 / 10) ≤ hi * (9 / 10) :=
        mul_le_mul_of_nonneg_right hlohi (by norm_num)
      _ < hi * (11 / 10) := by
        have := mul_lt_mul_of_pos_left
          (show (9 / 10 : ℚ) < 11 / 10 by norm_num) hhipos
        linarith
    exact Real.logb_lt_logb (by norm_num) (by exact_mod_cast h1)
      (by exact_mod_cast harg)

/-- Witness for C9 (amended) at the healthy three-bar series. -/
theorem c9_witness :
    initialView 1000 threeBarCanon ≠ [] ∧
    (∀ r ∈ initialView 1000 threeBarCanon, 0 < r.2.2) ∧
    (∀ r ∈ initialView 1000 threeBarCanon, r.2.2 ≤ r.2.1) ∧
    (∃ a b : ℝ, yBounds 1000 threeBarCanon = .ok (some a, some b) ∧ a < b) :=
  ⟨by decide, by decide, by decide,
   c9_bounds_ordered 1000 threeBarCanon (by decide) (by decide) (by decide)⟩

end StockChart
